import Mathlib

/-!
Shallow embedding of the FDA drug-approvals MCP server
(`fda_mcp_server.py`). The server is a thin layer over the openFDA HTTP
API: three tools (`search_drug_events`, `get_drug_label_info`,
`search_drug_recalls`), three read-only resources and two prompt
generators. Outbound HTTP requests are modelled as explicit function
parameters `fetch : RequestParams → Except String (ApiResponse _)`
(`.error` is a raised `httpx` / network exception, `.ok` a parsed JSON
body); JSON objects are modelled as structures whose optional keys are
`Option` fields, and `dict.get(k, default)` becomes `Option.getD`.
`json.dumps` is an external library function and is passed in as an
uninterpreted serializer where a handler uses it.
-/

namespace FdaMcp

/-! ### Python string primitives

The source uses `str.replace`, `str.split(",")` and `str.strip`. They are
embedded here as executable functions on character lists (the builtin
`String.replace`/`splitOn`/`trim` agree with them on the inputs involved,
but are implemented with byte-position loops that the kernel cannot
evaluate, so we give structurally recursive models instead). -/

/-- Embedding of Python `str.split(sep)` for a one-character separator:
occurrences of `sep` delimit segments, empty segments are kept, and the
empty input yields one empty segment. -/
def splitCharList (sep : Char) : List Char → List (List Char)
  | [] => [[]]
  | c :: cs =>
    if c = sep then [] :: splitCharList sep cs
    else
      match splitCharList sep cs with
      | [] => [[c]]
      | s :: rest => (c :: s) :: rest

/-- Joins segments back with the separator (inverse of `splitCharList`). -/
def joinSep (sep : Char) : List (List Char) → List Char
  | [] => []
  | [s] => s
  | s :: rest => s ++ sep :: joinSep sep rest

/-- Fuel-driven core of Python `str.replace` for a non-empty pattern:
scan left to right, replacing each (non-overlapping) occurrence of `pat`
by `rep`. Each step consumes at least one input character, so fuel equal
to the input length suffices. -/
def replaceAux (pat rep : List Char) : Nat → List Char → List Char
  | _, [] => []
  | 0, s => s
  | fuel + 1, c :: cs =>
    if pat.isPrefixOf (c :: cs) then
      rep ++ replaceAux pat rep fuel (List.drop (pat.length - 1) cs)
    else
      c :: replaceAux pat rep fuel cs

/-- Embedding of Python `str.replace(pat, rep)` for a non-empty pattern
(the source only ever calls it with the pattern `"_to_"`). -/
def pyReplace (s pat rep : String) : String :=
  ⟨replaceAux pat.data rep.data s.data.length s.data⟩

/-- Embedding of Python `str.strip()`: drop whitespace from both ends. -/
def pyStrip (s : String) : String :=
  ⟨((s.data.dropWhile Char.isWhitespace).reverse.dropWhile Char.isWhitespace).reverse⟩

/-- Embedding of Python `str.split(",")`. -/
def pySplitComma (s : String) : List String :=
  (splitCharList ',' s.data).map (fun seg => (⟨seg⟩ : String))

/-- Embedding of Python `sep.join(xs)`. -/
def pyJoin (sep : String) : List String → String
  | [] => ""
  | [x] => x
  | x :: rest => x ++ sep ++ pyJoin sep rest

/-- `containsSub sub s` holds when `sub` occurs contiguously inside `s`. -/
def containsSub (sub s : String) : Prop :=
  ∃ a b : String, s = a ++ sub ++ b

theorem data_append (a b : String) : (a ++ b).data = a.data ++ b.data := rfl

theorem strAppendAssoc (a b c : String) : a ++ b ++ c = a ++ (b ++ c) :=
  congrArg String.mk (List.append_assoc a.data b.data c.data)

/-! ### Upstream JSON shapes

Each openFDA endpoint answers `{meta: {results: {total}}, results: [...]}`;
every key may be absent. -/

/-- The `meta.results` object; `total` from `get("total", 0)`. -/
structure MetaResults where
  total : Option Nat
deriving DecidableEq

/-- The `meta` object of an openFDA response. -/
structure Meta where
  results : Option MetaResults
deriving DecidableEq

/-- A parsed openFDA response body with result type `α`. -/
structure ApiResponse (α : Type) where
  meta : Option Meta
  results : Option (List α)
deriving DecidableEq

/-- `data.get("meta", {}).get("results", {}).get("total", 0)`. -/
def metaTotal (meta : Option Meta) : Nat :=
  (((meta.getD { results := none }).results.getD { total := none }).total.getD 0)

/-- Query parameters of one outbound GET: the `search` expression and the
`limit` (the optional `sort` of the recent-recalls resource is not needed
by any claim handled here). -/
structure RequestParams where
  search : String
  limit : Nat
deriving DecidableEq

/-! ### Adverse events: upstream shape and projection -/

/-- One entry of `patient.drug` in an upstream adverse-event report. -/
structure UpstreamDrug where
  medicinalproduct : Option String
  drugindication : Option String
deriving DecidableEq

/-- One entry of `patient.reaction` in an upstream adverse-event report. -/
structure UpstreamReaction where
  reactionmeddrapt : Option String
deriving DecidableEq

/-- The `patient` object of an upstream adverse-event report. -/
structure UpstreamPatient where
  patientonsetage : Option String
  patientsex : Option String
  reaction : Option (List UpstreamReaction)
  drug : Option (List UpstreamDrug)
deriving DecidableEq

/-- One upstream adverse-event report. -/
structure UpstreamEvent where
  safetyreportid : Option String
  receivedate : Option String
  serious : Option String
  patient : Option UpstreamPatient
deriving DecidableEq

/-- The empty dict `{}` that `event.get("patient", {})` falls back to. -/
def emptyPatient : UpstreamPatient :=
  { patientonsetage := none, patientsex := none, reaction := none, drug := none }

/-- One element of the projected `drugs` list: `{name, indication}`. -/
structure ProcessedDrug where
  name : String
  indication : String
deriving DecidableEq

/-- The ProjectedEvent output shape of `search_drug_events`. -/
structure ProcessedEvent where
  report_id : String
  receive_date : String
  serious : String
  patient_age : String
  patient_sex : String
  reactions : List String
  drugs : List ProcessedDrug
deriving DecidableEq

/-- `reaction.get("reactionmeddrapt", "Unknown")`. -/
def processReaction (r : UpstreamReaction) : String :=
  r.reactionmeddrapt.getD "Unknown"

/-- `{"name": drug.get("medicinalproduct", "Unknown"), "indication": drug.get("drugindication", "Unknown")}`. -/
def processDrug (d : UpstreamDrug) : ProcessedDrug :=
  { name := d.medicinalproduct.getD "Unknown"
  , indication := d.drugindication.getD "Unknown" }

/-- The loop body of `_search_drug_events` that builds one `processed_event`
from one upstream `event`. -/
def processEvent (event : UpstreamEvent) : ProcessedEvent :=
  let patient := event.patient.getD emptyPatient
  { report_id := event.safetyreportid.getD "Unknown"
  , receive_date := event.receivedate.getD "Unknown"
  , serious := event.serious.getD "Unknown"
  , patient_age := patient.patientonsetage.getD "Unknown"
  , patient_sex := patient.patientsex.getD "Unknown"
  , reactions := (patient.reaction.getD []).map processReaction
  , drugs := (patient.drug.getD []).map processDrug }

/-- The request `_search_drug_events` sends: search expression
`patient.drug.medicinalproduct:"<drug_name>"`, with
`AND receivedate:[<start> TO <end>]` appended when `date_range` is
supplied, and `limit = min(limit, 100)`. -/
def eventParams (drug_name : String) (limit : Nat) (date_range : Option String) :
    RequestParams :=
  let search_query := "patient.drug.medicinalproduct:\"" ++ drug_name ++ "\""
  let base : RequestParams := { search := search_query, limit := min limit 100 }
  match date_range with
  | none => base
  | some dr =>
    { base with
      search := base.search ++ " AND receivedate:[" ++ pyReplace dr "_to_" " TO " ++ "]" }

/-- The `{"total_results": ..., "events": ...}` result of `search_drug_events`. -/
structure EventsResult where
  total_results : Nat
  events : List ProcessedEvent
deriving DecidableEq

/-- `_search_drug_events`: send the request, then project `results[:limit]`
(the original requested limit, not the capped one). A `.error` from `fetch`
models a raised network/HTTP-status exception propagating out. -/
def searchDrugEvents (drug_name : String) (limit : Nat) (date_range : Option String)
    (fetch : RequestParams → Except String (ApiResponse UpstreamEvent)) :
    Except String EventsResult :=
  match fetch (eventParams drug_name limit date_range) with
  | .error e => .error e
  | .ok data =>
    .ok { total_results := metaTotal data.meta
        , events := ((data.results.getD []).take limit).map processEvent }

/-! ### Drug labels: upstream shape and projection -/

/-- The `openfda` object of an upstream label record; every key holds a
list of strings when present. -/
structure OpenFda where
  brand_name : Option (List String)
  generic_name : Option (List String)
  manufacturer_name : Option (List String)
  substance_name : Option (List String)
  product_type : Option (List String)
  route : Option (List String)
deriving DecidableEq

/-- One upstream label record. -/
structure UpstreamLabel where
  openfda : Option OpenFda
  indications_and_usage : Option (List String)
  warnings : Option (List String)
  adverse_reactions : Option (List String)
  dosage_and_administration : Option (List String)
deriving DecidableEq

/-- The empty dict `{}` that `label.get("openfda", {})` falls back to. -/
def emptyOpenFda : OpenFda :=
  { brand_name := none, generic_name := none, manufacturer_name := none
  , substance_name := none, product_type := none, route := none }

/-- The ProjectedLabel output shape of `get_drug_label_info`. -/
structure ProcessedLabel where
  brand_names : List String
  generic_names : List String
  manufacturer : List String
  substance_names : List String
  product_type : List String
  route : List String
  indications_and_usage : List String
  warnings : List String
  adverse_reactions : List String
  dosage_and_administration : List String
deriving DecidableEq

/-- The loop body of `_get_drug_label_info` that builds one
`processed_label` from one upstream `label`. -/
def processLabel (label : UpstreamLabel) : ProcessedLabel :=
  let openfda := label.openfda.getD emptyOpenFda
  { brand_names := openfda.brand_name.getD []
  , generic_names := openfda.generic_name.getD []
  , manufacturer := openfda.manufacturer_name.getD []
  , substance_names := openfda.substance_name.getD []
  , product_type := openfda.product_type.getD []
  , route := openfda.route.getD []
  , indications_and_usage := label.indications_and_usage.getD ["Not available"]
  , warnings := label.warnings.getD ["Not available"]
  , adverse_reactions := label.adverse_reactions.getD ["Not available"]
  , dosage_and_administration := label.dosage_and_administration.getD ["Not available"] }

/-- The request `_get_drug_label_info` sends: search expression
`openfda.brand_name:"<drug_name>" OR openfda.generic_name:"<drug_name>"`
with `limit = min(limit, 50)`. -/
def labelParams (drug_name : String) (limit : Nat) : RequestParams :=
  { search := "openfda.brand_name:\"" ++ drug_name ++ "\" OR openfda.generic_name:\""
      ++ drug_name ++ "\""
  , limit := min limit 50 }

/-- The `{"total_results": ..., "labels": ...}` result of `get_drug_label_info`. -/
structure LabelsResult where
  total_results : Nat
  labels : List ProcessedLabel
deriving DecidableEq

/-- `_get_drug_label_info`: send the request, then project
`results[:limit]` (the original requested limit). -/
def getDrugLabelInfo (drug_name : String) (limit : Nat)
    (fetch : RequestParams → Except String (ApiResponse UpstreamLabel)) :
    Except String LabelsResult :=
  match fetch (labelParams drug_name limit) with
  | .error e => .error e
  | .ok data =>
    .ok { total_results := metaTotal data.meta
        , labels := ((data.results.getD []).take limit).map processLabel }

/-! ### Drug recalls: upstream shape and projection -/

/-- One upstream enforcement/recall record. -/
structure UpstreamRecall where
  recall_number : Option String
  product_description : Option String
  reason_for_recall : Option String
  classification : Option String
  status : Option String
  recall_initiation_date : Option String
  recalling_firm : Option String
  distribution_pattern : Option String
deriving DecidableEq

/-- The ProjectedRecall output shape of `search_drug_recalls`. -/
structure ProcessedRecall where
  recall_number : String
  product_description : String
  reason_for_recall : String
  classification : String
  status : String
  recall_initiation_date : String
  firm_name : String
  distribution_pattern : String
deriving DecidableEq

/-- The loop body of `_search_drug_recalls` that builds one
`processed_recall` from one upstream `recall`. -/
def processRecall (rec0 : UpstreamRecall) : ProcessedRecall :=
  { recall_number := rec0.recall_number.getD "Unknown"
  , product_description := rec0.product_description.getD "Unknown"
  , reason_for_recall := rec0.reason_for_recall.getD "Unknown"
  , classification := rec0.classification.getD "Unknown"
  , status := rec0.status.getD "Unknown"
  , recall_initiation_date := rec0.recall_initiation_date.getD "Unknown"
  , firm_name := rec0.recalling_firm.getD "Unknown"
  , distribution_pattern := rec0.distribution_pattern.getD "Unknown" }

/-- The request `_search_drug_recalls` sends:
`product_description:"<drug_name>"`, joined with
` AND classification:"<classification>"` when present, and
`limit = min(limit, 100)`. -/
def recallParams (drug_name : String) (classification : Option String) (limit : Nat) :
    RequestParams :=
  let search_parts := ["product_description:\"" ++ drug_name ++ "\""] ++
    (match classification with
     | some c => ["classification:\"" ++ c ++ "\""]
     | none => [])
  { search := pyJoin " AND " search_parts
  , limit := min limit 100 }

/-- The `{"total_results": ..., "recalls": ...}` result of `search_drug_recalls`. -/
structure RecallsResult where
  total_results : Nat
  recalls : List ProcessedRecall
deriving DecidableEq

/-- `_search_drug_recalls`: send the request, then project
`results[:limit]` (the original requested limit). -/
def searchDrugRecalls (drug_name : String) (classification : Option String) (limit : Nat)
    (fetch : RequestParams → Except String (ApiResponse UpstreamRecall)) :
    Except String RecallsResult :=
  match fetch (recallParams drug_name classification limit) with
  | .error e => .error e
  | .ok data =>
    .ok { total_results := metaTotal data.meta
        , recalls := ((data.results.getD []).take limit).map processRecall }

/-! ### Tool dispatch (`handle_call_tool`) -/

/-- The argument dict of one tool call; every key may be absent.
`drug_name` is read with `arguments["drug_name"]` (raising `KeyError`
when absent), the others with `arguments.get(...)`. -/
structure ToolArguments where
  drug_name : Option String
  limit : Option Nat
  date_range : Option String
  classification : Option String
deriving DecidableEq

/-- One `TextContent(type="text", text=...)` payload. -/
structure TextContentM where
  type : String
  text : String
deriving DecidableEq

/-- A `CallToolResult`: content payloads plus the `isError` flag
(defaulting to `false` when not set by the constructor call). -/
structure CallToolResultM where
  content : List TextContentM
  isError : Bool
deriving DecidableEq

/-- The `try` body of `handle_call_tool`: route on the tool name, running
the matching handler; `.error` is any exception escaping the body (a
`KeyError` on a missing required argument, an `httpx` failure from the
handler, or the explicit `ValueError(f"Unknown tool: {name}")`).
`json.dumps` on each result shape is passed in as a serializer. -/
def dispatchTool (name : String) (arguments : ToolArguments)
    (dumpsEvents : EventsResult → String)
    (dumpsLabels : LabelsResult → String)
    (dumpsRecalls : RecallsResult → String)
    (fetchEvents : RequestParams → Except String (ApiResponse UpstreamEvent))
    (fetchLabels : RequestParams → Except String (ApiResponse UpstreamLabel))
    (fetchRecalls : RequestParams → Except String (ApiResponse UpstreamRecall)) :
    Except String CallToolResultM :=
  if name = "search_drug_events" then
    match arguments.drug_name with
    | none => .error "missing drug_name"
    | some drug_name =>
      match searchDrugEvents drug_name (arguments.limit.getD 10) arguments.date_range
          fetchEvents with
      | .error e => .error e
      | .ok result =>
        .ok { content := [{ type := "text", text := dumpsEvents result }]
            , isError := false }
  else if name = "get_drug_label_info" then
    match arguments.drug_name with
    | none => .error "missing drug_name"
    | some drug_name =>
      match getDrugLabelInfo drug_name (arguments.limit.getD 5) fetchLabels with
      | .error e => .error e
      | .ok result =>
        .ok { content := [{ type := "text", text := dumpsLabels result }]
            , isError := false }
  else if name = "search_drug_recalls" then
    match arguments.drug_name with
    | none => .error "missing drug_name"
    | some drug_name =>
      match searchDrugRecalls drug_name arguments.classification (arguments.limit.getD 10)
          fetchRecalls with
      | .error e => .error e
      | .ok result =>
        .ok { content := [{ type := "text", text := dumpsRecalls result }]
            , isError := false }
  else
    .error ("Unknown tool: " ++ name)

/-- `handle_call_tool`: any exception from the dispatch body is caught and
turned into an error-flagged text result carrying the message. -/
def handleCallTool (name : String) (arguments : ToolArguments)
    (dumpsEvents : EventsResult → String)
    (dumpsLabels : LabelsResult → String)
    (dumpsRecalls : RecallsResult → String)
    (fetchEvents : RequestParams → Except String (ApiResponse UpstreamEvent))
    (fetchLabels : RequestParams → Except String (ApiResponse UpstreamLabel))
    (fetchRecalls : RequestParams → Except String (ApiResponse UpstreamRecall)) :
    CallToolResultM :=
  match dispatchTool name arguments dumpsEvents dumpsLabels dumpsRecalls
      fetchEvents fetchLabels fetchRecalls with
  | .ok r => r
  | .error e =>
    { content := [{ type := "text", text := "Error: " ++ e }], isError := true }

/-! ### Resources (`handle_read_resource` and `_get_popular_drug_labels`) -/

/-- The fixed candidate list of `_get_popular_drug_labels`. -/
def popular_drugs : List String :=
  ["aspirin", "ibuprofen", "acetaminophen", "metformin", "lisinopril"]

/-- The per-drug request of `_get_popular_drug_labels` (limit 1). -/
def popularLabelParams (drug : String) : RequestParams :=
  { search := "openfda.brand_name:\"" ++ drug ++ "\" OR openfda.generic_name:\""
      ++ drug ++ "\""
  , limit := 1 }

/-- The requests actually issued by `_get_popular_drug_labels`: one per
drug in `popular_drugs[:3]`. -/
def popularLabelRequests : List RequestParams :=
  (popular_drugs.take 3).map popularLabelParams

/-- The loop body of `_get_popular_drug_labels`: the `try` block fetches
one drug and, when `data.get("results")` is truthy (present and
non-empty), extends the accumulator; any exception is logged and the drug
skipped. -/
def popularLoopBody
    (fetch : RequestParams → Except String (ApiResponse UpstreamLabel))
    (all_labels : List UpstreamLabel) (drug : String) : List UpstreamLabel :=
  match fetch (popularLabelParams drug) with
  | .ok data =>
    match data.results with
    | some rs => if rs.isEmpty then all_labels else all_labels ++ rs
    | none => all_labels
  | .error _ => all_labels

/-- `_get_popular_drug_labels`: loop over `popular_drugs[:3]`. Returns
the `results` list of the `{"results": all_labels}` dict. -/
def getPopularDrugLabels
    (fetch : RequestParams → Except String (ApiResponse UpstreamLabel)) :
    List UpstreamLabel :=
  (popular_drugs.take 3).foldl (popularLoopBody fetch) []

/-- What one drug of `popular_drugs[:3]` contributes to the combined
output: its fetched `results` on success, nothing on failure. -/
def labelContribution
    (fetch : RequestParams → Except String (ApiResponse UpstreamLabel))
    (drug : String) : List UpstreamLabel :=
  match fetch (popularLabelParams drug) with
  | .ok data => data.results.getD []
  | .error _ => []

/-- The data fetched by a resource read, before `json.dumps`. -/
inductive ResourceData where
  | events (r : ApiResponse UpstreamEvent)
  | labels (r : List UpstreamLabel)
  | recalls (r : ApiResponse UpstreamRecall)
deriving DecidableEq

/-- A `ReadResourceResult`: the list of text payloads. -/
structure ReadResourceResultM where
  contents : List TextContentM
deriving DecidableEq

/-- The `try` body of `handle_read_resource`: route on the URI.
`recentEvents` / `recentRecalls` stand for the outcome of
`_get_recent_drug_events()` / `_get_recent_recalls()` (whose request
parameters depend on the current clock and are not modelled);
`_get_popular_drug_labels` never raises. -/
def resolveResource (uri : String)
    (recentEvents : Except String (ApiResponse UpstreamEvent))
    (fetchLabels : RequestParams → Except String (ApiResponse UpstreamLabel))
    (recentRecalls : Except String (ApiResponse UpstreamRecall)) :
    Except String ResourceData :=
  if uri = "fda://drug-events/recent" then recentEvents.map .events
  else if uri = "fda://drug-labels/popular" then
    .ok (.labels (getPopularDrugLabels fetchLabels))
  else if uri = "fda://recalls/recent" then recentRecalls.map .recalls
  else .error ("Unknown resource URI: " ++ uri)

/-- `handle_read_resource`: a successful read returns one text payload
holding `json.dumps(data, indent=2)` (passed in as `dumps`); any
exception is caught and returned as one text payload describing the
error. -/
def handleReadResource (uri : String)
    (dumps : ResourceData → String)
    (recentEvents : Except String (ApiResponse UpstreamEvent))
    (fetchLabels : RequestParams → Except String (ApiResponse UpstreamLabel))
    (recentRecalls : Except String (ApiResponse UpstreamRecall)) :
    ReadResourceResultM :=
  match resolveResource uri recentEvents fetchLabels recentRecalls with
  | .ok data => { contents := [{ type := "text", text := dumps data }] }
  | .error e =>
    { contents := [{ type := "text", text := "Error reading resource: " ++ e }] }

/-! ### Prompt generators -/

/-- The drug-name list of `_get_drug_comparison_prompt`:
`[drug.strip() for drug in drug_list.split(",")]`. -/
def comparisonDrugs (drug_list : String) : List String :=
  (pySplitComma drug_list).map pyStrip

/-- A `GetPromptResult`: description plus the single user message text. -/
structure PromptResultM where
  description : String
  message_text : String
deriving DecidableEq

/-- The f-string template of `_get_drug_comparison_prompt`, before
`.strip()`. -/
def comparisonPromptText (drugs : List String) : String :=
  "\nPlease compare the safety profiles of the following drugs: "
    ++ pyJoin ", " drugs
    ++ "\n\nFor each drug, use the FDA MCP server tools to gather:\n"
    ++ "1. Adverse event data\n2. Drug labeling information\n3. Recall history\n\n"
    ++ "Create a comparative analysis including:\n"
    ++ "- Side effect profiles comparison\n- Relative safety rankings\n"
    ++ "- Different risk factors for each drug\n"
    ++ "- Contraindications and warnings comparison\n"
    ++ "- Historical recall patterns\n\n"
    ++ "Present the comparison in a clear, structured format that helps "
    ++ "understand the relative risks and benefits of each medication.\n"

/-- `_get_drug_comparison_prompt`: split, strip, and fill the template. -/
def getDrugComparisonPrompt (drug_list : String) : PromptResultM :=
  let drugs := comparisonDrugs drug_list
  { description := "Comparative analysis prompt for: " ++ pyJoin ", " drugs
  , message_text := pyStrip (comparisonPromptText drugs) }

/-! ## Verified properties -/

/-- The per-field defaulting contract of a ProjectedEvent against its
upstream report: each scalar field is `"Unknown"` when its source key is
absent, and the sequence fields are the projections of the (possibly
defaulted-to-empty) upstream lists. -/
def eventDefaults (ev : UpstreamEvent) (pe : ProcessedEvent) : Prop :=
  (ev.safetyreportid = none → pe.report_id = "Unknown") ∧
  (ev.receivedate = none → pe.receive_date = "Unknown") ∧
  (ev.serious = none → pe.serious = "Unknown") ∧
  ((ev.patient.getD emptyPatient).patientonsetage = none → pe.patient_age = "Unknown") ∧
  ((ev.patient.getD emptyPatient).patientsex = none → pe.patient_sex = "Unknown") ∧
  pe.reactions = ((ev.patient.getD emptyPatient).reaction.getD []).map processReaction ∧
  pe.drugs = ((ev.patient.getD emptyPatient).drug.getD []).map processDrug

theorem processEvent_defaults (ev : UpstreamEvent) : eventDefaults ev (processEvent ev) := by
  refine ⟨?_, ?_, ?_, ?_, ?_, rfl, rfl⟩ <;> intro h <;> simp [processEvent, h]

/-- C1: for every valid EventQuery with limit `L`, when the upstream
request succeeds and yields `min(min(L,100), avail)` results (the
upstream honours the capped request limit against `avail` available
records), the returned event list has length `min(L, avail, 100)` and
every element is the projection of an upstream report with all fields
populated, `"Unknown"` substituted where the source field is absent. -/
theorem searchDrugEvents_length_and_defaults
    (drug_name : String) (L avail : Nat) (date_range : Option String)
    (fetch : RequestParams → Except String (ApiResponse UpstreamEvent))
    (data : ApiResponse UpstreamEvent)
    (hfetch : fetch (eventParams drug_name L date_range) = .ok data)
    (hupstream : (data.results.getD []).length = min (min L 100) avail) :
    ∃ res, searchDrugEvents drug_name L date_range fetch = .ok res ∧
      res.events.length = min L (min avail 100) ∧
      ∀ pe ∈ res.events, ∃ ev ∈ data.results.getD [],
        pe = processEvent ev ∧ eventDefaults ev pe := by
  have hrun : searchDrugEvents drug_name L date_range fetch =
      .ok { total_results := metaTotal data.meta
          , events := ((data.results.getD []).take L).map processEvent } := by
    unfold searchDrugEvents
    rw [hfetch]
  refine ⟨_, hrun, ?_, ?_⟩
  · simp only [List.length_map, List.length_take, hupstream]
    omega
  · intro pe hpe
    rw [List.mem_map] at hpe
    obtain ⟨ev, hev, hpe⟩ := hpe
    exact ⟨ev, List.mem_of_mem_take hev, hpe.symm, hpe ▸ processEvent_defaults ev⟩

/-- A concrete adverse-event report used to instantiate the theorems. -/
def sampleEvent : UpstreamEvent :=
  { safetyreportid := some "US-1", receivedate := none, serious := none, patient := none }

/-- A concrete upstream response holding one report and no meta. -/
def sampleEventResponse : ApiResponse UpstreamEvent :=
  { meta := none, results := some [sampleEvent] }

/-- A concrete fetch answering every request with `sampleEventResponse`. -/
def sampleEventFetch : RequestParams → Except String (ApiResponse UpstreamEvent) :=
  fun _ => .ok sampleEventResponse

theorem searchDrugEvents_length_and_defaults_witness :
    (sampleEventFetch (eventParams "aspirin" 2 none) = .ok sampleEventResponse) ∧
    ((sampleEventResponse.results.getD []).length = min (min 2 100) 1) ∧
    ∃ res, searchDrugEvents "aspirin" 2 none sampleEventFetch = .ok res ∧
      res.events.length = min 2 (min 1 100) ∧
      ∀ pe ∈ res.events, ∃ ev ∈ sampleEventResponse.results.getD [],
        pe = processEvent ev ∧ eventDefaults ev pe :=
  ⟨rfl, by decide,
    searchDrugEvents_length_and_defaults "aspirin" 2 1 none sampleEventFetch
      sampleEventResponse rfl (by decide)⟩

/-- C10: sequence-valued ProjectedEvent fields default to empty sequences
rather than `"Unknown"`: with no upstream `patient` object, `reactions`
and `drugs` are empty while `patient_age` and `patient_sex` are
`"Unknown"`; within a reaction or drug entry only the individual missing
subfields become `"Unknown"` (present subfields are carried through). -/
theorem processEvent_sequence_defaults (ev : UpstreamEvent) (h : ev.patient = none) :
    (processEvent ev).reactions = [] ∧
    (processEvent ev).drugs = [] ∧
    (processEvent ev).patient_age = "Unknown" ∧
    (processEvent ev).patient_sex = "Unknown" ∧
    (∀ r : UpstreamReaction, r.reactionmeddrapt = none → processReaction r = "Unknown") ∧
    (∀ r : UpstreamReaction, ∀ v, r.reactionmeddrapt = some v → processReaction r = v) ∧
    (∀ d : UpstreamDrug, d.medicinalproduct = none → (processDrug d).name = "Unknown") ∧
    (∀ d : UpstreamDrug, d.drugindication = none → (processDrug d).indication = "Unknown") ∧
    (∀ d : UpstreamDrug, ∀ v, d.medicinalproduct = some v → (processDrug d).name = v) ∧
    (∀ d : UpstreamDrug, ∀ v, d.drugindication = some v → (processDrug d).indication = v) := by
  refine ⟨?_, ?_, ?_, ?_, ?_, ?_, ?_, ?_, ?_, ?_⟩
  · simp [processEvent, h, emptyPatient]
  · simp [processEvent, h, emptyPatient]
  · simp [processEvent, h, emptyPatient]
  · simp [processEvent, h, emptyPatient]
  · intro r hr; simp [processReaction, hr]
  · intro r v hr; simp [processReaction, hr]
  · intro d hd; simp [processDrug, hd]
  · intro d hd; simp [processDrug, hd]
  · intro d v hd; simp [processDrug, hd]
  · intro d v hd; simp [processDrug, hd]

theorem processEvent_sequence_defaults_witness :
    (sampleEvent.patient = none) ∧
    (processEvent sampleEvent).reactions = [] ∧
    (processEvent sampleEvent).drugs = [] ∧
    (processEvent sampleEvent).patient_age = "Unknown" ∧
    (processEvent sampleEvent).patient_sex = "Unknown" :=
  have h := processEvent_sequence_defaults sampleEvent rfl
  ⟨rfl, h.1, h.2.1, h.2.2.1, h.2.2.2.1⟩

/-- C4: a supplied `date_range` is split on the literal separator
`"_to_"` and ANDed into the search expression as a `receivedate` range
clause; concretely, `"20240101_to_20240131"` yields a search string
containing `receivedate:[20240101 TO 20240131]`. -/
theorem eventParams_date_range_clause (drug_name : String) (L : Nat) (dr : String) :
    (eventParams drug_name L (some dr)).search =
      (eventParams drug_name L none).search ++ " AND receivedate:["
        ++ pyReplace dr "_to_" " TO " ++ "]" ∧
    pyReplace "20240101_to_20240131" "_to_" " TO " = "20240101 TO 20240131" ∧
    containsSub "receivedate:[20240101 TO 20240131]"
      ((eventParams "aspirin" 10 (some "20240101_to_20240131")).search) :=
  ⟨rfl, by decide,
    "patient.drug.medicinalproduct:\"aspirin\" AND ", "", by decide⟩

/-- C2: calling `search_drug_recalls` with `limit = 200` sends the
upstream request with limit capped at 100, and as long as the upstream
honours its requested limit, the returned recall list never holds more
than 100 items. -/
theorem searchDrugRecalls_limit200_capped
    (drug_name : String) (classification : Option String)
    (fetch : RequestParams → Except String (ApiResponse UpstreamRecall))
    (data : ApiResponse UpstreamRecall)
    (hfetch : fetch (recallParams drug_name classification 200) = .ok data)
    (hbound : (data.results.getD []).length ≤ (recallParams drug_name classification 200).limit) :
    (recallParams drug_name classification 200).limit = 100 ∧
    ∃ res, searchDrugRecalls drug_name classification 200 fetch = .ok res ∧
      res.recalls.length ≤ 100 := by
  have hlim : (recallParams drug_name classification 200).limit = 100 := rfl
  have hrun : searchDrugRecalls drug_name classification 200 fetch =
      .ok { total_results := metaTotal data.meta
          , recalls := ((data.results.getD []).take 200).map processRecall } := by
    unfold searchDrugRecalls
    rw [hfetch]
  refine ⟨hlim, _, hrun, ?_⟩
  rw [hlim] at hbound
  simp only [List.length_map, List.length_take]
  omega

/-- A concrete recall record with every key present. -/
def sampleRecall : UpstreamRecall :=
  { recall_number := some "D-1", product_description := some "Aspirin 81mg"
  , reason_for_recall := some "contamination", classification := some "Class II"
  , status := some "Ongoing", recall_initiation_date := some "20240110"
  , recalling_firm := some "Acme", distribution_pattern := some "Nationwide" }

/-- A concrete upstream enforcement response holding two records. -/
def sampleRecallResponse : ApiResponse UpstreamRecall :=
  { meta := none, results := some [sampleRecall, sampleRecall] }

/-- A concrete fetch answering every request with `sampleRecallResponse`. -/
def sampleRecallFetch : RequestParams → Except String (ApiResponse UpstreamRecall) :=
  fun _ => .ok sampleRecallResponse

theorem searchDrugRecalls_limit200_capped_witness :
    (sampleRecallFetch (recallParams "aspirin" none 200) = .ok sampleRecallResponse) ∧
    ((sampleRecallResponse.results.getD []).length ≤ (recallParams "aspirin" none 200).limit) ∧
    (recallParams "aspirin" none 200).limit = 100 ∧
    ∃ res, searchDrugRecalls "aspirin" none 200 sampleRecallFetch = .ok res ∧
      res.recalls.length ≤ 100 :=
  ⟨rfl, by decide,
    searchDrugRecalls_limit200_capped "aspirin" none sampleRecallFetch
      sampleRecallResponse rfl (by decide)⟩

/-- The per-field defaulting contract of a ProjectedLabel: absent
list-valued `openfda` fields (including when the whole `openfda` object
is absent) yield the empty sequence, absent text-section fields yield
`["Not available"]`. -/
def labelDefaults (lbl : UpstreamLabel) (pl : ProcessedLabel) : Prop :=
  ((lbl.openfda.getD emptyOpenFda).brand_name = none → pl.brand_names = []) ∧
  ((lbl.openfda.getD emptyOpenFda).generic_name = none → pl.generic_names = []) ∧
  ((lbl.openfda.getD emptyOpenFda).manufacturer_name = none → pl.manufacturer = []) ∧
  ((lbl.openfda.getD emptyOpenFda).substance_name = none → pl.substance_names = []) ∧
  ((lbl.openfda.getD emptyOpenFda).product_type = none → pl.product_type = []) ∧
  ((lbl.openfda.getD emptyOpenFda).route = none → pl.route = []) ∧
  (lbl.indications_and_usage = none → pl.indications_and_usage = ["Not available"]) ∧
  (lbl.warnings = none → pl.warnings = ["Not available"]) ∧
  (lbl.adverse_reactions = none → pl.adverse_reactions = ["Not available"]) ∧
  (lbl.dosage_and_administration = none → pl.dosage_and_administration = ["Not available"])

theorem processLabel_defaults (lbl : UpstreamLabel) : labelDefaults lbl (processLabel lbl) := by
  refine ⟨?_, ?_, ?_, ?_, ?_, ?_, ?_, ?_, ?_, ?_⟩ <;> intro h <;> simp [processLabel, h]

/-- C3: in every ProjectedLabel produced by `get_drug_label_info`, absent
list-valued upstream fields yield an empty sequence and absent
text-section fields yield `["Not available"]`. -/
theorem getDrugLabelInfo_defaults
    (drug_name : String) (L : Nat)
    (fetch : RequestParams → Except String (ApiResponse UpstreamLabel))
    (data : ApiResponse UpstreamLabel)
    (hfetch : fetch (labelParams drug_name L) = .ok data) :
    ∃ res, getDrugLabelInfo drug_name L fetch = .ok res ∧
      ∀ pl ∈ res.labels, ∃ lbl ∈ data.results.getD [],
        pl = processLabel lbl ∧ labelDefaults lbl pl := by
  have hrun : getDrugLabelInfo drug_name L fetch =
      .ok { total_results := metaTotal data.meta
          , labels := ((data.results.getD []).take L).map processLabel } := by
    unfold getDrugLabelInfo
    rw [hfetch]
  refine ⟨_, hrun, ?_⟩
  intro pl hpl
  rw [List.mem_map] at hpl
  obtain ⟨lbl, hlbl, hpl⟩ := hpl
  exact ⟨lbl, List.mem_of_mem_take hlbl, hpl.symm, hpl ▸ processLabel_defaults lbl⟩

/-- A concrete upstream label record with every key absent. -/
def sampleLabel : UpstreamLabel :=
  { openfda := none, indications_and_usage := none, warnings := none
  , adverse_reactions := none, dosage_and_administration := none }

/-- A concrete upstream label response holding one bare record. -/
def sampleLabelResponse : ApiResponse UpstreamLabel :=
  { meta := none, results := some [sampleLabel] }

/-- A concrete fetch answering every request with `sampleLabelResponse`. -/
def sampleLabelFetch : RequestParams → Except String (ApiResponse UpstreamLabel) :=
  fun _ => .ok sampleLabelResponse

theorem getDrugLabelInfo_defaults_witness :
    (sampleLabelFetch (labelParams "tylenol" 5) = .ok sampleLabelResponse) ∧
    ∃ res, getDrugLabelInfo "tylenol" 5 sampleLabelFetch = .ok res ∧
      ∀ pl ∈ res.labels, ∃ lbl ∈ sampleLabelResponse.results.getD [],
        pl = processLabel lbl ∧ labelDefaults lbl pl :=
  ⟨rfl, getDrugLabelInfo_defaults "tylenol" 5 sampleLabelFetch sampleLabelResponse rfl⟩

/-- C8: `get_drug_label_info` with requested limit `L` sends the upstream
request with `limit = min(L, 50)`, and when the upstream honours the
capped limit against `avail` available records, the output label list has
length `min(L, avail, 50)`. -/
theorem getDrugLabelInfo_limit_cap
    (drug_name : String) (L avail : Nat)
    (fetch : RequestParams → Except String (ApiResponse UpstreamLabel))
    (data : ApiResponse UpstreamLabel)
    (hfetch : fetch (labelParams drug_name L) = .ok data)
    (hupstream : (data.results.getD []).length = min (min L 50) avail) :
    (labelParams drug_name L).limit = min L 50 ∧
    ∃ res, getDrugLabelInfo drug_name L fetch = .ok res ∧
      res.labels.length = min L (min avail 50) := by
  have hrun : getDrugLabelInfo drug_name L fetch =
      .ok { total_results := metaTotal data.meta
          , labels := ((data.results.getD []).take L).map processLabel } := by
    unfold getDrugLabelInfo
    rw [hfetch]
  refine ⟨rfl, _, hrun, ?_⟩
  simp only [List.length_map, List.length_take, hupstream]
  omega

theorem getDrugLabelInfo_limit_cap_witness :
    (sampleLabelFetch (labelParams "advil" 3) = .ok sampleLabelResponse) ∧
    ((sampleLabelResponse.results.getD []).length = min (min 3 50) 1) ∧
    (labelParams "advil" 3).limit = min 3 50 ∧
    ∃ res, getDrugLabelInfo "advil" 3 sampleLabelFetch = .ok res ∧
      res.labels.length = min 3 (min 1 50) :=
  ⟨rfl, by decide,
    getDrugLabelInfo_limit_cap "advil" 3 1 sampleLabelFetch sampleLabelResponse rfl (by decide)⟩

theorem splitCharList_ne_nil (sep : Char) (l : List Char) : splitCharList sep l ≠ [] := by
  cases l with
  | nil => simp [splitCharList]
  | cons c cs =>
    by_cases h : c = sep
    · simp [splitCharList, h]
    · cases hr : splitCharList sep cs with
      | nil => simp [splitCharList, h, hr]
      | cons s rest => simp [splitCharList, h, hr]

theorem joinSep_pair (sep : Char) (s t : List Char) (rest : List (List Char)) :
    joinSep sep (s :: t :: rest) = s ++ sep :: joinSep sep (t :: rest) := rfl

theorem joinSep_splitCharList (sep : Char) (l : List Char) :
    joinSep sep (splitCharList sep l) = l := by
  induction l with
  | nil => rfl
  | cons c cs ih =>
    by_cases h : c = sep
    · cases hsp : splitCharList sep cs with
      | nil => exact absurd hsp (splitCharList_ne_nil sep cs)
      | cons s rest =>
        have hsplit : splitCharList sep (c :: cs) = [] :: s :: rest := by
          simp [splitCharList, h, hsp]
        rw [hsplit, joinSep_pair, ← hsp, ih, h]
        rfl
    · cases hsp : splitCharList sep cs with
      | nil => exact absurd hsp (splitCharList_ne_nil sep cs)
      | cons s rest =>
        have hsplit : splitCharList sep (c :: cs) = (c :: s) :: rest := by
          simp [splitCharList, h, hsp]
        rw [hsp] at ih
        rw [hsplit]
        cases rest with
        | nil =>
          simp only [joinSep] at ih ⊢
          rw [ih]
        | cons t ts =>
          rw [joinSep_pair] at ih ⊢
          rw [List.cons_append, ih]

theorem splitCharList_no_sep (sep : Char) (l : List Char) :
    ∀ seg ∈ splitCharList sep l, sep ∉ seg := by
  induction l with
  | nil =>
    intro seg hseg
    simp [splitCharList] at hseg
    simp [hseg]
  | cons c cs ih =>
    intro seg hseg
    by_cases h : c = sep
    · rw [show splitCharList sep (c :: cs) = [] :: splitCharList sep cs by
        simp [splitCharList, h]] at hseg
      rcases List.mem_cons.mp hseg with rfl | hm
      · simp
      · exact ih seg hm
    · cases hsp : splitCharList sep cs with
      | nil => exact absurd hsp (splitCharList_ne_nil sep cs)
      | cons s rest =>
        rw [show splitCharList sep (c :: cs) = (c :: s) :: rest by
          simp [splitCharList, h, hsp]] at hseg
        rcases List.mem_cons.mp hseg with rfl | hm
        · intro hmem
          rcases List.mem_cons.mp hmem with heq | hmem2
          · exact h heq.symm
          · exact ih s (by rw [hsp]; exact List.mem_cons_self s rest) hmem2
        · exact ih seg (by rw [hsp]; exact List.mem_cons_of_mem s hm)

/-- C5: the `drug_comparison` prompt generator splits its input on
commas, trims whitespace from each segment, preserves segment order and
count, and keeps empty segments; on `"Aspirin, ibuprofen ,Tylenol"` it
yields `["Aspirin","ibuprofen","Tylenol"]`. -/
theorem comparisonDrugs_split_trim :
    comparisonDrugs "Aspirin, ibuprofen ,Tylenol" = ["Aspirin", "ibuprofen", "Tylenol"] ∧
    comparisonDrugs "a,,b" = ["a", "", "b"] ∧
    (getDrugComparisonPrompt "Aspirin, ibuprofen ,Tylenol").description
      = "Comparative analysis prompt for: Aspirin, ibuprofen, Tylenol" ∧
    (∀ s : String, joinSep ',' (splitCharList ',' s.data) = s.data) ∧
    (∀ s : String, ∀ seg ∈ splitCharList ',' s.data, (',' : Char) ∉ seg) ∧
    (∀ s : String, (comparisonDrugs s).length = (splitCharList ',' s.data).length) := by
  refine ⟨by decide, by decide, by decide, fun s => joinSep_splitCharList ',' s.data,
    fun s => splitCharList_no_sep ',' s.data, fun s => ?_⟩
  simp [comparisonDrugs, pySplitComma]

theorem comparisonDrugs_split_trim_witness :
    ("ab".data ∈ splitCharList ',' "ab,c".data) ∧ (',' : Char) ∉ "ab".data :=
  ⟨by decide, comparisonDrugs_split_trim.2.2.2.2.1 "ab,c" "ab".data (by decide)⟩

/-- C6: calling any unknown tool name yields an error-flagged result
whose text contains `"Unknown tool"`, and every dispatch failure (unknown
name or handler exception) is converted into an error-flagged text result
instead of propagating out of `handle_call_tool`. -/
theorem handleCallTool_unknown_tool (name : String) (arguments : ToolArguments)
    (dumpsEvents : EventsResult → String) (dumpsLabels : LabelsResult → String)
    (dumpsRecalls : RecallsResult → String)
    (fetchEvents : RequestParams → Except String (ApiResponse UpstreamEvent))
    (fetchLabels : RequestParams → Except String (ApiResponse UpstreamLabel))
    (fetchRecalls : RequestParams → Except String (ApiResponse UpstreamRecall))
    (h1 : name ≠ "search_drug_events")
    (h2 : name ≠ "get_drug_label_info")
    (h3 : name ≠ "search_drug_recalls") :
    dispatchTool name arguments dumpsEvents dumpsLabels dumpsRecalls
        fetchEvents fetchLabels fetchRecalls = .error ("Unknown tool: " ++ name) ∧
    (handleCallTool name arguments dumpsEvents dumpsLabels dumpsRecalls
        fetchEvents fetchLabels fetchRecalls).isError = true ∧
    (∃ tc, (handleCallTool name arguments dumpsEvents dumpsLabels dumpsRecalls
        fetchEvents fetchLabels fetchRecalls).content = [tc] ∧
      containsSub "Unknown tool" tc.text) ∧
    (∀ name2 args2 e, dispatchTool name2 args2 dumpsEvents dumpsLabels dumpsRecalls
        fetchEvents fetchLabels fetchRecalls = .error e →
      handleCallTool name2 args2 dumpsEvents dumpsLabels dumpsRecalls
          fetchEvents fetchLabels fetchRecalls =
        { content := [{ type := "text", text := "Error: " ++ e }], isError := true }) := by
  have hdisp : dispatchTool name arguments dumpsEvents dumpsLabels dumpsRecalls
      fetchEvents fetchLabels fetchRecalls = .error ("Unknown tool: " ++ name) := by
    unfold dispatchTool
    rw [if_neg h1, if_neg h2, if_neg h3]
  have hcatch : ∀ name2 args2 e, dispatchTool name2 args2 dumpsEvents dumpsLabels
      dumpsRecalls fetchEvents fetchLabels fetchRecalls = .error e →
      handleCallTool name2 args2 dumpsEvents dumpsLabels dumpsRecalls
          fetchEvents fetchLabels fetchRecalls =
        { content := [{ type := "text", text := "Error: " ++ e }], isError := true } := by
    intro name2 args2 e he
    unfold handleCallTool
    rw [he]
  have hres := hcatch name arguments _ hdisp
  refine ⟨hdisp, by rw [hres], ?_, hcatch⟩
  rw [hres]
  refine ⟨_, rfl, "Error: ", ": " ++ name, ?_⟩
  show "Error: " ++ ("Unknown tool: " ++ name) = "Error: " ++ "Unknown tool" ++ (": " ++ name)
  rw [show ("Unknown tool: " : String) = "Unknown tool" ++ ": " from rfl,
    strAppendAssoc "Unknown tool" ": " name,
    ← strAppendAssoc "Error: " "Unknown tool" (": " ++ name)]

/-- A concrete empty argument dict. -/
def noArgs : ToolArguments :=
  { drug_name := none, limit := none, date_range := none, classification := none }

theorem handleCallTool_unknown_tool_witness :
    (("list_tools" : String) ≠ "search_drug_events") ∧
    (handleCallTool "list_tools" noArgs
      (fun _ => "") (fun _ => "") (fun _ => "")
      (fun _ => .error "net") (fun _ => .error "net") (fun _ => .error "net")).isError
      = true :=
  ⟨by decide,
    (handleCallTool_unknown_tool "list_tools" noArgs
      (fun _ => "") (fun _ => "") (fun _ => "")
      (fun _ => .error "net") (fun _ => .error "net") (fun _ => .error "net")
      (by decide) (by decide) (by decide)).2.1⟩

theorem popularLoopBody_eq_append
    (fetch : RequestParams → Except String (ApiResponse UpstreamLabel))
    (acc : List UpstreamLabel) (drug : String) :
    popularLoopBody fetch acc drug = acc ++ labelContribution fetch drug := by
  unfold popularLoopBody labelContribution
  cases fetch (popularLabelParams drug) with
  | error e => simp
  | ok data =>
    obtain ⟨m, results⟩ := data
    cases results with
    | none => simp
    | some rs =>
      cases rs with
      | nil => simp
      | cons a l => simp

theorem getPopularDrugLabels_flatten
    (fetch : RequestParams → Except String (ApiResponse UpstreamLabel)) :
    getPopularDrugLabels fetch =
      ((popular_drugs.take 3).map (labelContribution fetch)).flatten := by
  have h3 : popular_drugs.take 3 = ["aspirin", "ibuprofen", "acetaminophen"] := rfl
  unfold getPopularDrugLabels
  rw [h3]
  simp [popularLoopBody_eq_append, List.append_assoc]

/-- C7: reading the popular-drug-labels resource issues exactly 3
upstream requests although the catalog holds 5 names, and the combined
output is the concatenation of the per-drug contributions — a
failing request contributes nothing while the results of every other drug
still appear. -/
theorem getPopularDrugLabels_requests_resilience
    (fetch : RequestParams → Except String (ApiResponse UpstreamLabel)) :
    popular_drugs.length = 5 ∧
    popularLabelRequests.length = 3 ∧
    getPopularDrugLabels fetch =
      ((popular_drugs.take 3).map (labelContribution fetch)).flatten ∧
    ∀ drug ∈ popular_drugs.take 3, ∀ lbl ∈ labelContribution fetch drug,
      lbl ∈ getPopularDrugLabels fetch := by
  refine ⟨rfl, rfl, getPopularDrugLabels_flatten fetch, ?_⟩
  intro drug hd lbl hl
  rw [getPopularDrugLabels_flatten fetch]
  exact List.mem_flatten.mpr ⟨_, List.mem_map_of_mem _ hd, hl⟩

/-- A concrete fetch that fails on the ibuprofen request and answers the
other requests with `sampleLabelResponse`. -/
def sampleFailingFetch : RequestParams → Except String (ApiResponse UpstreamLabel) :=
  fun p => if p = popularLabelParams "ibuprofen" then .error "HTTP 500"
    else .ok sampleLabelResponse

theorem getPopularDrugLabels_requests_resilience_witness :
    popularLabelRequests.length = 3 ∧
    sampleFailingFetch (popularLabelParams "ibuprofen") = .error "HTTP 500" ∧
    sampleLabel ∈ getPopularDrugLabels sampleFailingFetch :=
  ⟨(getPopularDrugLabels_requests_resilience sampleFailingFetch).2.1,
    rfl,
    (getPopularDrugLabels_requests_resilience sampleFailingFetch).2.2.2 "aspirin"
      (by decide) sampleLabel (by decide)⟩

/-- C9: every resource read returns exactly one text payload — the
serialized JSON of the fetched data on success, an error description on
any failure (an unknown URI resolves to the `Unknown resource URI`
failure) — and never propagates the failure. -/
theorem handleReadResource_shape (uri : String) (dumps : ResourceData → String)
    (recentEvents : Except String (ApiResponse UpstreamEvent))
    (fetchLabels : RequestParams → Except String (ApiResponse UpstreamLabel))
    (recentRecalls : Except String (ApiResponse UpstreamRecall)) :
    (handleReadResource uri dumps recentEvents fetchLabels recentRecalls).contents.length = 1 ∧
    (∀ d, resolveResource uri recentEvents fetchLabels recentRecalls = .ok d →
      (handleReadResource uri dumps recentEvents fetchLabels recentRecalls).contents
        = [{ type := "text", text := dumps d }]) ∧
    (∀ e, resolveResource uri recentEvents fetchLabels recentRecalls = .error e →
      (handleReadResource uri dumps recentEvents fetchLabels recentRecalls).contents
        = [{ type := "text", text := "Error reading resource: " ++ e }]) ∧
    (uri ≠ "fda://drug-events/recent" → uri ≠ "fda://drug-labels/popular" →
      uri ≠ "fda://recalls/recent" →
      resolveResource uri recentEvents fetchLabels recentRecalls
        = .error ("Unknown resource URI: " ++ uri)) := by
  refine ⟨?_, ?_, ?_, ?_⟩
  · unfold handleReadResource
    cases hres : resolveResource uri recentEvents fetchLabels recentRecalls <;> simp
  · intro d hd
    unfold handleReadResource
    rw [hd]
  · intro e he
    unfold handleReadResource
    rw [he]
  · intro h1 h2 h3
    unfold resolveResource
    rw [if_neg h1, if_neg h2, if_neg h3]

theorem handleReadResource_shape_witness :
    (handleReadResource "fda://nope" (fun _ => "{}")
      (.error "net") (fun _ => .error "net") (.error "net")).contents.length = 1 ∧
    resolveResource "fda://nope" (Except.error "net") (fun _ => Except.error "net")
        (Except.error "net")
      = .error ("Unknown resource URI: " ++ "fda://nope") :=
  ⟨(handleReadResource_shape "fda://nope" (fun _ => "{}")
      (.error "net") (fun _ => .error "net") (.error "net")).1,
    (handleReadResource_shape "fda://nope" (fun _ => "{}")
      (.error "net") (fun _ => .error "net") (.error "net")).2.2.2
      (by decide) (by decide) (by decide)⟩

end FdaMcp
